import Mathlib

/-!
# Online Record Submission — verification of the visibility / matching core

Shallow embedding of `src/app.py` (Flask assignment-submission portal).
The record store holds flat JSON records; we embed the record shapes and the
endpoint logic that the specification's claims are about:

* `isVisible` / `get_student_assignments` — student-side visibility resolver
  (`get_student_assignments`, app.py lines 163-185);
* `matchingSubmissions` / `get_assignment_submissions` — faculty-side
  submission matcher with ownership check (app.py lines 376-399);
* `update_submission_status` (app.py lines 401-422);
* `delete_submission` (app.py lines 250-269), `delete_assignment`
  (app.py lines 359-374);
* `create_assignment` (app.py lines 321-357), `upload_submission`
  (app.py lines 198-248);
* `exportFiltered` / `export_submissions_csv` / `csvRows` (app.py
  lines 441-486).

Modelling conventions:
* Python `dict.get(k, d)` with the key absent is the `Option.getD` of an
  `Option`-typed field; `Assignment.targetType = none` models a stored record
  whose `targetType` key is absent (the visibility code reads it with
  `a.get('targetType', 'all')`, the matcher subscripts it directly, so the
  matcher raises `KeyError` there — embedded as the `none` result /
  `ApiError.server`).
* `Assignment.targetSection = none` models a stored JSON `null`
  (`create_assignment` stores `data.get('targetSection')`, which is `None`
  when the request omits it); Python `None == s` is `False` for every string
  `s`, which the `Option` equality reproduces.
* Errors returned as HTTP status codes become the `ApiError` type:
  400 validation, 404 not-found, the "Only PDF files allowed" 400 is
  `unsupported`, an uncaught exception is `server` (Flask's 500 handler).
* `datetime.now()` timestamps enter as explicit `now` arguments; file-system
  side effects (saving/unlinking the uploaded file) are external
  collaborators and are not part of the record-level state.
-/

deriving instance DecidableEq for Except

namespace OnlineRecordSubmission

/-- Python `str.strip()` with no argument: remove leading and trailing
whitespace (modelled over the character list so that it evaluates; the
ASCII whitespace set of `Char.isWhitespace` stands in for Python's). -/
def pyStrip (s : String) : String :=
  ⟨((s.data.dropWhile Char.isWhitespace).reverse.dropWhile Char.isWhitespace).reverse⟩

/-- Error taxonomy of the endpoints: 400 on missing/malformed fields
(`validation`), 404 (`notFound`), 400 "Only PDF files allowed"
(`unsupported`), uncaught exception → Flask 500 (`server`). -/
inductive ApiError where
  | validation
  | notFound
  | unsupported
  | server
  deriving DecidableEq, Repr

/-- An assignment record as written by `create_assignment` (app.py 342-353).
`targetType = none` models a record whose `targetType` key is absent;
`targetSection = none` models a stored `null`. -/
structure Assignment where
  id : Nat
  subject : String
  targetType : Option String
  targetSection : Option String
  targetStudents : List String
  deadlineDate : String
  deadlineTime : String
  assignedBy : String
  assignedByName : String
  createdAt : String
  deriving DecidableEq, Repr

/-- A submission record as written by `upload_submission` (app.py 233-244).
`sectionName` embeds the `section` field (a Lean keyword); `submittedOn =
none` models a record with the `submittedOn` key absent, which the CSV
export reads with `s.get('submittedOn', 'N/A')`. -/
structure Submission where
  id : Nat
  studentID : String
  name : String
  sectionName : String
  subject : String
  fileName : String
  filePath : String
  submittedOn : Option String
  status : String
  remarks : String
  deriving DecidableEq, Repr

/-! ## Visibility resolver (app.py 163-185, `get_student_assignments`) -/

/-- The per-assignment visibility decision of `get_student_assignments`
(app.py 174-183): `target_type = a.get('targetType', 'all')`, then the
`if/elif` chain over `'all'`, `'section'`, `'students'`, appending nothing
otherwise. -/
def isVisible (a : Assignment) (studentId : String) (studentSection : String) : Bool :=
  let targetType := a.targetType.getD "all"
  if targetType = "all" then true
  else if targetType = "section" ∧ a.targetSection = some studentSection then true
  else if targetType = "students" ∧ studentId ∈ a.targetStudents then true
  else false

/-- `GET /api/student/assignments`: the visible assignments, in stored
collection order (app.py 171-185). -/
def get_student_assignments (studentId : String) (studentSection : String)
    (assignments : List Assignment) : List Assignment :=
  assignments.filter (fun a => isVisible a studentId studentSection)

/-! ## Submission matcher (app.py 388-399 and its copy at 457-463) -/

/-- The submission filter of `get_assignment_submissions` (app.py 388-399):
subject equality first, then the target-type scope filter.  The code
subscripts `assignment['targetType']` directly, so a record with the key
absent raises `KeyError` — embedded as `none`. -/
def matchingSubmissions (assignment : Assignment) (submissions : List Submission) :
    Option (List Submission) :=
  match assignment.targetType with
  | none => none
  | some targetType =>
    let filtered := submissions.filter (fun s => s.subject == assignment.subject)
    if targetType = "section" then
      some (filtered.filter (fun s => some s.sectionName == assignment.targetSection))
    else if targetType = "students" then
      some (filtered.filter (fun s => assignment.targetStudents.contains s.studentID))
    else
      some filtered

/-- The submission filter as duplicated inside `export_submissions_csv`
(app.py 457-463, "same logic as get_assignment_submissions"), transcribed
from that second code block. -/
def exportFiltered (assignment : Assignment) (submissions : List Submission) :
    Option (List Submission) :=
  match assignment.targetType with
  | none => none
  | some targetType =>
    let filtered := submissions.filter (fun s => s.subject == assignment.subject)
    if targetType = "section" then
      some (filtered.filter (fun s => some s.sectionName == assignment.targetSection))
    else if targetType = "students" then
      some (filtered.filter (fun s => assignment.targetStudents.contains s.studentID))
    else
      some filtered

/-- `GET /api/faculty/submissions/<assign_id>` (app.py 376-399): ownership
check (`a['id'] == assign_id and a['assignedBy'] == faculty_id`, first match)
then the filter. -/
def get_assignment_submissions (facultyId : String) (assignId : Nat)
    (assignments : List Assignment) (submissions : List Submission) :
    Except ApiError (List Submission) :=
  match assignments.find? (fun a => a.id == assignId && a.assignedBy == facultyId) with
  | none => .error .notFound
  | some assignment =>
    match matchingSubmissions assignment submissions with
    | none => .error .server
    | some filtered => .ok filtered

/-! ## CSV export (app.py 441-486, `export_submissions_csv`) -/

/-- The `csv.DictWriter` field names (app.py 467). -/
def csvHeader : List String := ["Student Name", "ID", "Section", "File", "Submitted", "Status"]

/-- One CSV data row (app.py 471-478); `Submitted` is
`s.get('submittedOn', 'N/A')`. -/
def csvRow (s : Submission) : List String :=
  [s.name, s.studentID, s.sectionName, s.fileName, s.submittedOn.getD "N/A", s.status]

/-- The rendered table: header row then one row per submission, in input
order (app.py 466-478). -/
def csvRows (submissions : List Submission) : List (List String) :=
  csvHeader :: submissions.map csvRow

/-- `GET /api/faculty/submissions/<assign_id>/export` (app.py 441-486):
ownership check, the duplicated filter, then the table. -/
def export_submissions_csv (facultyId : String) (assignId : Nat)
    (assignments : List Assignment) (submissions : List Submission) :
    Except ApiError (List (List String)) :=
  match assignments.find? (fun a => a.id == assignId && a.assignedBy == facultyId) with
  | none => .error .notFound
  | some assignment =>
    match exportFiltered assignment submissions with
    | none => .error .server
    | some filtered => .ok (csvRows filtered)

/-! ## Status update (app.py 401-422, `update_submission_status`) -/

/-- In-place mutation of the record returned by
`next((s for s in submissions if s['id'] == sub_id), None)`: only the first
record with the id is mutated, the list order is unchanged (app.py 413-420). -/
def setStatusFirst (submissions : List Submission) (subId : Nat)
    (newStatus : String) (remarks : String) : List Submission :=
  match submissions with
  | [] => []
  | s :: rest =>
    if s.id = subId then { s with status := newStatus, remarks := remarks } :: rest
    else s :: setStatusFirst rest subId newStatus remarks

/-- `PUT /api/faculty/submission/<sub_id>/status` (app.py 401-422).
`new_status = data.get('status', '').strip()`; membership in
`['Accepted', 'Rejected']` is checked on the stripped value; there is no
ownership check — the session faculty id is never read.  `facultyId` is the
authenticated caller, present to make that independence explicit. -/
def update_submission_status (facultyId : String) (subId : Nat)
    (status : String) (remarks : String) (submissions : List Submission) :
    Except ApiError (List Submission) :=
  let newStatus := pyStrip status
  if ¬ (newStatus = "Accepted" ∨ newStatus = "Rejected") then .error .validation
  else
    match submissions.find? (fun s => s.id == subId) with
    | none => .error .notFound
    | some _ => .ok (setStatusFirst submissions subId newStatus remarks)

/-! ## Deletion (app.py 250-269 and 359-374) -/

/-- `DELETE /api/student/submission/<sub_id>` (app.py 250-269): 404 unless a
record with the id and the caller's `studentID` exists; on success the list
comprehension `[s for s in submissions if s['id'] != sub_id]` drops every
record with that id. -/
def delete_submission (studentId : String) (subId : Nat)
    (submissions : List Submission) : Except ApiError (List Submission) :=
  match submissions.find? (fun s => s.id == subId && s.studentID == studentId) with
  | none => .error .notFound
  | some _ => .ok (submissions.filter (fun s => ¬ s.id = subId))

/-- `DELETE /api/faculty/assignment/<assign_id>` (app.py 359-374): 404 unless
a record with the id and `assignedBy == faculty_id` exists; on success
`[x for x in assignments if x['id'] != assign_id]` drops every record with
that id. -/
def delete_assignment (facultyId : String) (assignId : Nat)
    (assignments : List Assignment) : Except ApiError (List Assignment) :=
  match assignments.find? (fun a => a.id == assignId && a.assignedBy == facultyId) with
  | none => .error .notFound
  | some _ => .ok (assignments.filter (fun a => ¬ a.id = assignId))

/-! ## Creation (app.py 321-357 and 198-248) -/

/-- The request body of `POST /api/faculty/create-assignment`, as read by
app.py 329-332: `data.get('subject', '')`, `data.get('targetType', 'all')`,
`data.get('targetSection')`, `data.get('targetStudents', [])`,
`data.get('deadlineDate', '')`, `data.get('deadlineTime', '')`.
`Option` fields are `none` when the request omits the key, making the
`.get` defaults explicit. -/
structure AssignmentRequest where
  subject : String
  targetType : Option String
  targetSection : Option String
  targetStudents : List String
  deadlineDate : String
  deadlineTime : String
  deriving DecidableEq, Repr

/-- `POST /api/faculty/create-assignment` (app.py 321-357): 400 when the
stripped `subject`, `deadlineDate` or `deadlineTime` is empty, otherwise
append a record with `id = len(assignments) + 1`.  Returns the new
collection together with the created record. -/
def create_assignment (req : AssignmentRequest) (facultyId : String)
    (facultyName : String) (now : String) (assignments : List Assignment) :
    Except ApiError (List Assignment × Assignment) :=
  let subject := pyStrip req.subject
  let targetType := req.targetType.getD "all"
  let deadlineDate := pyStrip req.deadlineDate
  let deadlineTime := pyStrip req.deadlineTime
  if subject = "" ∨ deadlineDate = "" ∨ deadlineTime = "" then .error .validation
  else
    let a : Assignment :=
      { id := assignments.length + 1
        subject := subject
        targetType := some targetType
        targetSection := req.targetSection
        targetStudents := req.targetStudents
        deadlineDate := deadlineDate
        deadlineTime := deadlineTime
        assignedBy := facultyId
        assignedByName := facultyName
        createdAt := now }
    .ok (assignments ++ [a], a)

/-- The assignments collection after a `create_assignment` call: on the 400
early return `save_json` is never reached (app.py 334-335), so the stored
collection is untouched. -/
def assignmentsAfterCreate (req : AssignmentRequest) (facultyId : String)
    (facultyName : String) (now : String) (assignments : List Assignment) :
    List Assignment :=
  match create_assignment req facultyId facultyName now assignments with
  | .error _ => assignments
  | .ok (col, _) => col

/-- `allowed_file` (app.py 21-22): `'.' in filename and
filename.rsplit('.', 1)[1].lower() in {'pdf'}`; the part after the last dot
is the reversal of the longest dot-free suffix. -/
def allowed_file (filename : String) : Bool :=
  filename.data.contains '.' &&
    ((filename.data.reverse.takeWhile (fun c => ¬ c = '.')).reverse.map Char.toLower == "pdf".data)

/-- `POST /api/student/upload` (app.py 198-248): 400 when no file part or
empty file/subject, 400 "Only PDF files allowed" (`unsupported`) when
`allowed_file` rejects the name, otherwise append a record with
`id = len(submissions) + 1`, `status = 'Pending'`, `remarks = ''`.
`storedFileName`/`storedFilePath` are the timestamped name and path the
external file store produced. -/
def upload_submission (hasFile : Bool) (origFileName : String) (subject : String)
    (studentId : String) (studentName : String) (studentSection : String)
    (storedFileName : String) (storedFilePath : String) (now : String)
    (submissions : List Submission) : Except ApiError (List Submission × Submission) :=
  if ¬ hasFile then .error .validation
  else if pyStrip subject = "" then .error .validation
  else if ¬ allowed_file origFileName then .error .unsupported
  else
    let s : Submission :=
      { id := submissions.length + 1
        studentID := studentId
        name := studentName
        sectionName := studentSection
        subject := pyStrip subject
        fileName := storedFileName
        filePath := storedFilePath
        submittedOn := some now
        status := "Pending"
        remarks := "" }
    .ok (submissions ++ [s], s)

/-! ## Concrete records used by witnesses and counterexamples -/

/-- An assignment record whose `targetType` key is absent, as a hand-edited
or legacy `assignments.json` entry may be. -/
def missingTargetAssignment : Assignment :=
  { id := 1
    subject := "Math"
    targetType := none
    targetSection := none
    targetStudents := []
    deadlineDate := "2025-01-10"
    deadlineTime := "09:00"
    assignedBy := "F1"
    assignedByName := "Prof"
    createdAt := "t0" }

/-! ## C1 — visibility decision -/

/-- C1 (amended): `isVisible` returns `true` iff the assignment's
`targetType`, **with a missing key defaulting to `'all'`**, is `'all'`; or is
`'section'` and `targetSection` equals the student's section (exact string
equality, two empty sections match); or is `'students'` and the student's id
is in `targetStudents`.  Every other *present* `targetType` value is
fail-closed, but a record with the key absent is visible to every student. -/
theorem isVisible_characterization (a : Assignment) (studentId studentSection : String) :
    isVisible a studentId studentSection = true ↔
      (a.targetType.getD "all" = "all" ∨
       (a.targetType = some "section" ∧ a.targetSection = some studentSection) ∨
       (a.targetType = some "students" ∧ studentId ∈ a.targetStudents)) := by
  unfold isVisible
  cases h : a.targetType with
  | none => simp
  | some tt =>
    simp only [Option.getD_some]
    split_ifs with h1 h2 h3 <;> simp_all

/-- C1 counterexample: for an assignment whose `targetType` key is missing,
none of the claim's three visibility conditions holds, yet the code shows
the assignment (`a.get('targetType', 'all')` defaults the missing key to
`'all'`), contradicting the claimed fail-closed handling of missing
`targetType`. -/
theorem isVisible_missing_targetType_not_fail_closed :
    isVisible missingTargetAssignment "S1" "A" = true ∧
      ¬ (missingTargetAssignment.targetType = some "all" ∨
         (missingTargetAssignment.targetType = some "section" ∧
           missingTargetAssignment.targetSection = some "A") ∨
         (missingTargetAssignment.targetType = some "students" ∧
           "S1" ∈ missingTargetAssignment.targetStudents)) := by
  decide

/-! ## C2 — submission matcher -/

/-- The claim's scenario assignment
`{subject:"Math", targetType:"section", targetSection:"A"}`. -/
def mathSectionA : Assignment :=
  { id := 1
    subject := "Math"
    targetType := some "section"
    targetSection := some "A"
    targetStudents := []
    deadlineDate := "2025-01-10"
    deadlineTime := "09:00"
    assignedBy := "F1"
    assignedByName := "Prof"
    createdAt := "t0" }

/-- Scenario submission `{subject:"Math", section:"A"}`. -/
def subMathA : Submission :=
  { id := 1, studentID := "S1", name := "Ann", sectionName := "A", subject := "Math"
    fileName := "a.pdf", filePath := "uploads/S1/a.pdf", submittedOn := some "t1"
    status := "Pending", remarks := "" }

/-- Scenario submission `{subject:"Math", section:"B"}`. -/
def subMathB : Submission :=
  { id := 2, studentID := "S2", name := "Ben", sectionName := "B", subject := "Math"
    fileName := "b.pdf", filePath := "uploads/S2/b.pdf", submittedOn := some "t2"
    status := "Pending", remarks := "" }

/-- Scenario submission `{subject:"Physics", section:"A"}`. -/
def subPhysicsA : Submission :=
  { id := 3, studentID := "S3", name := "Cyd", sectionName := "A", subject := "Physics"
    fileName := "c.pdf", filePath := "uploads/S3/c.pdf", submittedOn := some "t3"
    status := "Pending", remarks := "" }

/-- C2: for an assignment whose `targetType` is present, the matcher of
`GET /api/faculty/submissions/<id>` keeps exactly the submissions whose
`subject` equals the assignment's subject and which, when
`targetType = 'section'`, have `section` equal to `targetSection`, and when
`targetType = 'students'`, have `studentID` in `targetStudents`; the result
is a `filter` of the input, so the input collection's order is preserved. -/
theorem matchingSubmissions_spec (a : Assignment) (tt : String)
    (h : a.targetType = some tt) (submissions : List Submission) :
    matchingSubmissions a submissions =
      some (submissions.filter (fun s => decide (s.subject = a.subject ∧
        (tt = "section" → some s.sectionName = a.targetSection) ∧
        (tt = "students" → s.studentID ∈ a.targetStudents)))) ∧
    ∀ kept, matchingSubmissions a submissions = some kept →
      ∀ s, s ∈ kept ↔ (s ∈ submissions ∧ s.subject = a.subject ∧
        (tt = "section" → some s.sectionName = a.targetSection) ∧
        (tt = "students" → s.studentID ∈ a.targetStudents)) := by
  have hmain : matchingSubmissions a submissions =
      some (submissions.filter (fun s => decide (s.subject = a.subject ∧
        (tt = "section" → some s.sectionName = a.targetSection) ∧
        (tt = "students" → s.studentID ∈ a.targetStudents)))) := by
    unfold matchingSubmissions
    rw [h]
    dsimp only
    split_ifs with h1 h2
    · subst h1
      simp only [List.filter_filter, Option.some.injEq]
      apply List.filter_congr
      intro s _
      rw [Bool.eq_iff_iff]
      simp
      tauto
    · subst h2
      simp only [List.filter_filter, Option.some.injEq]
      apply List.filter_congr
      intro s _
      rw [Bool.eq_iff_iff]
      simp
      tauto
    · simp only [Option.some.injEq]
      apply List.filter_congr
      intro s _
      rw [Bool.eq_iff_iff]
      simp [h1, h2]
  refine ⟨hmain, ?_⟩
  intro kept hk s
  rw [hmain] at hk
  injection hk with hk
  subst hk
  simp only [List.mem_filter, decide_eq_true_eq]

/-- C2 witness: the claim's scenario — assignment
`{subject:"Math", targetType:"section", targetSection:"A"}` against
`[{Math,A}, {Math,B}, {Physics,A}]` keeps only the first submission. -/
theorem matchingSubmissions_spec_witness :
    mathSectionA.targetType = some "section" ∧
    matchingSubmissions mathSectionA [subMathA, subMathB, subPhysicsA] = some [subMathA] := by
  refine ⟨rfl, ?_⟩
  rw [(matchingSubmissions_spec mathSectionA "section" rfl [subMathA, subMathB, subPhysicsA]).1]
  decide

/-! ## C3 — one filter for view / export, but not for status update -/

/-- The filter duplicated in `export_submissions_csv` (app.py 457-463)
computes the same function as the one in `get_assignment_submissions`
(app.py 388-399). -/
lemma exportFiltered_eq (a : Assignment) (submissions : List Submission) :
    exportFiltered a submissions = matchingSubmissions a submissions := rfl

/-- An assignment `{subject:"Math", targetType:"all"}` owned by `F1`. -/
def mathAllF1 : Assignment :=
  { id := 1
    subject := "Math"
    targetType := some "all"
    targetSection := none
    targetStudents := []
    deadlineDate := "2025-01-10"
    deadlineTime := "09:00"
    assignedBy := "F1"
    assignedByName := "Prof"
    createdAt := "t0" }

/-- C3 (amended): "view submissions" and "export CSV" select submissions by
the same matching function — the export endpoint is the `csvRows` image of
the view endpoint on every input — but "update status" is *not* driven by
that filter: it selects by submission id alone (see the counterexample). -/
theorem view_and_export_share_filter :
    (∀ (a : Assignment) (submissions : List Submission),
      exportFiltered a submissions = matchingSubmissions a submissions) ∧
    (∀ (facultyId : String) (assignId : Nat) (assignments : List Assignment)
        (submissions : List Submission),
      export_submissions_csv facultyId assignId assignments submissions =
        Except.map csvRows (get_assignment_submissions facultyId assignId assignments submissions)) := by
  refine ⟨fun a submissions => exportFiltered_eq a submissions, ?_⟩
  intro facultyId assignId assignments submissions
  unfold export_submissions_csv get_assignment_submissions
  cases hf : assignments.find? (fun a => a.id == assignId && a.assignedBy == facultyId) with
  | none => rfl
  | some a =>
    dsimp only
    rw [exportFiltered_eq]
    cases hm : matchingSubmissions a submissions with
    | none => rfl
    | some kept => rfl

/-- C3 counterexample: with assignment 1 = `{subject:"Math",
targetType:"all", assignedBy:"F1"}` and the single stored submission having
subject `"Physics"`, the view operation considers no submission at all, yet
`update_submission_status` on that submission's id succeeds and mutates it —
the three operations do not consider the same set of submissions
(`update_submission_status` never consults the matching filter, app.py
412-413). -/
theorem update_status_ignores_matching_filter :
    get_assignment_submissions "F1" 1 [mathAllF1] [subPhysicsA] = .ok [] ∧
    export_submissions_csv "F1" 1 [mathAllF1] [subPhysicsA] = .ok [csvHeader] ∧
    update_submission_status "F1" 3 "Accepted" "good" [subPhysicsA] =
      .ok [{ subPhysicsA with status := "Accepted", remarks := "good" }] := by
  decide

/-! ## C4 — status update semantics -/

/-- `next((s for s in submissions if s['id'] == sub_id), None)` returning a
record splits the list around the first record with the id, and the in-place
mutation (`setStatusFirst`) rewrites exactly that record. -/
lemma find_id_decomp (submissions : List Submission) (subId : Nat) (s : Submission)
    (h : submissions.find? (fun t => t.id == subId) = some s) :
    ∃ pre post, submissions = pre ++ s :: post ∧ (∀ t ∈ pre, ¬ t.id = subId) ∧ s.id = subId ∧
      ∀ st rem, setStatusFirst submissions subId st rem =
        pre ++ ({ s with status := st, remarks := rem } : Submission) :: post := by
  induction submissions with
  | nil => simp at h
  | cons hd tl ih =>
    by_cases hid : hd.id = subId
    · have hs : hd = s := by
        simp [List.find?, hid] at h
        exact h
      subst hs
      refine ⟨[], tl, by simp, by simp, hid, ?_⟩
      intro st rem
      simp [setStatusFirst, hid]
    · have h' : tl.find? (fun t => t.id == subId) = some s := by
        rwa [List.find?_cons_of_neg _ (by simpa using hid)] at h
      obtain ⟨pre, post, heq, hpre, hsid, hset⟩ := ih h'
      refine ⟨hd :: pre, post, by simp [heq], ?_, hsid, ?_⟩
      · intro t ht
        rcases List.mem_cons.mp ht with rfl | ht
        · exact hid
        · exact hpre t ht
      · intro st rem
        simp [setStatusFirst, hid, hset st rem]

/-- C4 (amended): `update_submission_status` fails with `ValidationError`
iff the new status, **after Python's `.strip()`**, is neither `'Accepted'`
nor `'Rejected'`; with a valid stripped status it fails with `NotFoundError`
iff no submission with that id exists; the outcome never depends on which
authenticated faculty calls it (no ownership check); and on success the
first submission with that id has its `status` and `remarks` fields updated
while every other record is untouched. -/
theorem update_submission_status_spec (facultyId : String) (subId : Nat)
    (status remarks : String) (submissions : List Submission) :
    (update_submission_status facultyId subId status remarks submissions = .error .validation ↔
      ¬ (pyStrip status = "Accepted" ∨ pyStrip status = "Rejected")) ∧
    ((pyStrip status = "Accepted" ∨ pyStrip status = "Rejected") →
      (update_submission_status facultyId subId status remarks submissions = .error .notFound ↔
        ∀ s ∈ submissions, ¬ s.id = subId)) ∧
    (∀ facultyId', update_submission_status facultyId subId status remarks submissions =
        update_submission_status facultyId' subId status remarks submissions) ∧
    (∀ updated, update_submission_status facultyId subId status remarks submissions = .ok updated →
      ∃ pre s post, submissions = pre ++ s :: post ∧ (∀ t ∈ pre, ¬ t.id = subId) ∧
        s.id = subId ∧
        updated = pre ++ ({ s with status := pyStrip status, remarks := remarks } : Submission) :: post) := by
  refine ⟨?_, ?_, fun _ => rfl, ?_⟩
  · unfold update_submission_status
    dsimp only
    split_ifs with hv
    · simp only [hv, not_true_eq_false, iff_false]
      cases hf : submissions.find? (fun s => s.id == subId) with
      | none => simp
      | some s => simp
    · simp [hv]
  · intro hvalid
    unfold update_submission_status
    dsimp only
    rw [if_neg (not_not_intro hvalid)]
    cases hf : submissions.find? (fun s => s.id == subId) with
    | none =>
      simp only [true_iff]
      intro s hs
      have := List.find?_eq_none.mp hf s hs
      simpa using this
    | some s =>
      have hmem := List.mem_of_find?_eq_some hf
      have hsid : s.id = subId := by simpa using List.find?_some hf
      constructor
      · intro hcontra
        cases hcontra
      · intro hall
        exact absurd hsid (hall s hmem)
  · intro updated hok
    unfold update_submission_status at hok
    dsimp only at hok
    split_ifs at hok with hv
    · cases hf : submissions.find? (fun s => s.id == subId) with
      | none =>
        rw [hf] at hok
        cases hok
      | some s =>
        rw [hf] at hok
        obtain ⟨pre, post, heq, hpre, hsid, hset⟩ := find_id_decomp submissions subId s hf
        refine ⟨pre, s, post, heq, hpre, hsid, ?_⟩
        have hs := hset (pyStrip status) remarks
        simp only [Except.ok.injEq] at hok
        rw [← hok, hs]

/-- C4 witness: a valid status against a store without the id yields
`NotFoundError`, by the theorem applied at a concrete input. -/
theorem update_submission_status_spec_witness :
    (pyStrip "Accepted" = "Accepted" ∨ pyStrip "Accepted" = "Rejected") ∧
    update_submission_status "F1" 9 "Accepted" "" [subMathA] = .error .notFound := by
  refine ⟨Or.inl (by decide), ?_⟩
  exact ((update_submission_status_spec "F1" 9 "Accepted" "" [subMathA]).2.1
    (Or.inl (by decide))).mpr (by decide)

/-- C4 counterexample: `" Accepted "` is neither of the two literal statuses
the claim admits, yet the call succeeds because the code strips the value
first (`data.get('status', '').strip()`, app.py 407) — refuting "fails with
ValidationError unless newStatus is 'Accepted' or 'Rejected'". -/
theorem update_status_accepts_padded_status :
    ¬ (" Accepted " = "Accepted" ∨ " Accepted " = "Rejected") ∧
    update_submission_status "F1" 1 " Accepted " "" [subMathA] =
      .ok [{ subMathA with status := "Accepted", remarks := "" }] := by
  decide

/-! ## C5 — createAssignment validation -/

/-- A create-assignment request whose subject is blank after stripping. -/
def emptySubjectReq : AssignmentRequest :=
  { subject := "   "
    targetType := none
    targetSection := none
    targetStudents := []
    deadlineDate := "2025-01-10"
    deadlineTime := "09:00" }

/-- C5: `create_assignment` fails iff the stripped `subject`, `deadlineDate`
or `deadlineTime` is empty, the failure is always `ValidationError`, and on
failure the stored collection is exactly the one before the call (the 400
early return happens before anything is appended or saved). -/
theorem create_assignment_validation (req : AssignmentRequest)
    (facultyId facultyName now : String) (assignments : List Assignment) :
    ((∃ e, create_assignment req facultyId facultyName now assignments = .error e) ↔
      (pyStrip req.subject = "" ∨ pyStrip req.deadlineDate = "" ∨ pyStrip req.deadlineTime = "")) ∧
    (∀ e, create_assignment req facultyId facultyName now assignments = .error e →
      e = .validation ∧
      assignmentsAfterCreate req facultyId facultyName now assignments = assignments) := by
  constructor
  · constructor
    · rintro ⟨e, he⟩
      unfold create_assignment at he
      dsimp only at he
      split_ifs at he with hv
      exact hv
    · intro hv
      refine ⟨.validation, ?_⟩
      unfold create_assignment
      dsimp only
      rw [if_pos hv]
  · intro e he
    have hval : e = ApiError.validation := by
      unfold create_assignment at he
      dsimp only at he
      split_ifs at he with hv
      · injection he with h
        exact h.symm
    refine ⟨hval, ?_⟩
    unfold assignmentsAfterCreate
    rw [he]

/-- C5 witness: the claim's scenario — creating with an (all-blank) subject
fails with `ValidationError` and leaves the collection unchanged. -/
theorem create_assignment_validation_witness :
    create_assignment emptySubjectReq "F1" "Prof" "t0" [] = .error .validation ∧
    assignmentsAfterCreate emptySubjectReq "F1" "Prof" "t0" [] = [] := by
  have h := create_assignment_validation emptySubjectReq "F1" "Prof" "t0" []
  obtain ⟨e, he⟩ := h.1.mpr (Or.inl (by decide))
  have h2 := h.2 e he
  exact ⟨h2.1 ▸ he, h2.2⟩

/-! ## C6 — count-based id assignment -/

/-- A valid create-assignment request for the given subject. -/
def validReq (subject : String) : AssignmentRequest :=
  { subject := subject
    targetType := some "all"
    targetSection := none
    targetStudents := []
    deadlineDate := "2025-02-01"
    deadlineTime := "10:00" }

/-- A pre-existing assignment of another faculty whose id (2) collides with
a count-assigned id. -/
def preexistingF2 : Assignment :=
  { id := 2
    subject := "History"
    targetType := some "all"
    targetSection := none
    targetStudents := []
    deadlineDate := "2025-01-05"
    deadlineTime := "08:00"
    assignedBy := "F2"
    assignedByName := "Dr"
    createdAt := "s0" }

/-- First assignment created in the C6 scenario (`id = 1 + 1 = 2`). -/
def a1Math : Assignment :=
  { id := 2
    subject := "Math"
    targetType := some "all"
    targetSection := none
    targetStudents := []
    deadlineDate := "2025-02-01"
    deadlineTime := "10:00"
    assignedBy := "F1"
    assignedByName := "Prof"
    createdAt := "t1" }

/-- Second assignment created in the C6 scenario (`id = 2 + 1 = 3`). -/
def a2Bio : Assignment :=
  { id := 3
    subject := "Bio"
    targetType := some "all"
    targetSection := none
    targetStudents := []
    deadlineDate := "2025-02-01"
    deadlineTime := "10:00"
    assignedBy := "F1"
    assignedByName := "Prof"
    createdAt := "t2" }

/-- Assignment created after the deletion in the C6 scenario
(`id = 1 + 1 = 2` again). -/
def a4Chem : Assignment :=
  { id := 2
    subject := "Chem"
    targetType := some "all"
    targetSection := none
    targetStudents := []
    deadlineDate := "2025-02-01"
    deadlineTime := "10:00"
    assignedBy := "F1"
    assignedByName := "Prof"
    createdAt := "t3" }

/-- C6: every successful creation (assignment or submission) assigns
`id = len(collection) + 1` and appends the record; and there is a sequence
of operations — two assignments created, the first then deleted, a new one
created — after which the new assignment's id equals the deleted
assignment's old id.  (In the exhibited run the store already holds a
foreign record with id 2, so the delete of the first created assignment —
`[x for x in assignments if x['id'] != assign_id]` — also drops that
duplicate, and the count comes back down to where it was.) -/
theorem count_based_id_assignment :
    (∀ (req : AssignmentRequest) (facultyId facultyName now : String)
        (assignments newAssignments : List Assignment) (a : Assignment),
      create_assignment req facultyId facultyName now assignments = .ok (newAssignments, a) →
        a.id = assignments.length + 1 ∧ newAssignments = assignments ++ [a]) ∧
    (∀ (hasFile : Bool) (origFileName subject studentId studentName studentSection
        storedFileName storedFilePath now : String)
        (submissions newSubmissions : List Submission) (s : Submission),
      upload_submission hasFile origFileName subject studentId studentName studentSection
          storedFileName storedFilePath now submissions = .ok (newSubmissions, s) →
        s.id = submissions.length + 1 ∧ newSubmissions = submissions ++ [s]) ∧
    (create_assignment (validReq "Math") "F1" "Prof" "t1" [preexistingF2] =
        .ok ([preexistingF2, a1Math], a1Math) ∧
      create_assignment (validReq "Bio") "F1" "Prof" "t2" [preexistingF2, a1Math] =
        .ok ([preexistingF2, a1Math, a2Bio], a2Bio) ∧
      delete_assignment "F1" a1Math.id [preexistingF2, a1Math, a2Bio] = .ok [a2Bio] ∧
      create_assignment (validReq "Chem") "F1" "Prof" "t3" [a2Bio] =
        .ok ([a2Bio, a4Chem], a4Chem) ∧
      a4Chem.id = a1Math.id) := by
  refine ⟨?_, ?_, by decide⟩
  · intro req facultyId facultyName now assignments newAssignments a h
    unfold create_assignment at h
    dsimp only at h
    split_ifs at h with hv
    injection h with h
    injection h with h1 h2
    subst h2
    exact ⟨rfl, h1.symm⟩
  · intro hasFile origFileName subject studentId studentName studentSection
      storedFileName storedFilePath now submissions newSubmissions s h
    unfold upload_submission at h
    dsimp only at h
    split_ifs at h with h1 h2 h3
    injection h with h
    injection h with hl hr
    subst hr
    exact ⟨rfl, hl.symm⟩

/-- C6 witness: the general count-based rule applied at the scenario's first
creation — over a one-element store the new id is 2. -/
theorem count_based_id_assignment_witness :
    a1Math.id = [preexistingF2].length + 1 ∧
    [preexistingF2, a1Math] = [preexistingF2] ++ [a1Math] :=
  count_based_id_assignment.1 (validReq "Math") "F1" "Prof" "t1"
    [preexistingF2] [preexistingF2, a1Math] a1Math (by decide)

/-! ## C7 — deleteSubmission -/

/-- Whatever the matcher returns is drawn from its input collection. -/
lemma matchingSubmissions_subset (a : Assignment) (submissions kept : List Submission)
    (h : matchingSubmissions a submissions = some kept) : ∀ s ∈ kept, s ∈ submissions := by
  unfold matchingSubmissions at h
  cases ht : a.targetType with
  | none =>
    rw [ht] at h
    cases h
  | some tt =>
    rw [ht] at h
    dsimp only at h
    split_ifs at h with h1 h2
    · injection h with h
      subst h
      intro s hs
      exact List.mem_of_mem_filter (List.mem_of_mem_filter hs)
    · injection h with h
      subst h
      intro s hs
      exact List.mem_of_mem_filter (List.mem_of_mem_filter hs)
    · injection h with h
      subst h
      intro s hs
      exact List.mem_of_mem_filter hs

/-- C7 (amended): `delete_submission` fails with `NotFoundError` iff no
submission has both the id and the caller's `studentID`; on success the
result is the input with **every** record carrying that id removed — the
caller's targeted submission among them, so it appears in no subsequent
matcher result — and every record with a different id is retained unchanged,
in order.  (With duplicate ids — reachable under the count-based id scheme —
another student's record with the same id is removed too; see the
counterexample.) -/
theorem delete_submission_spec (studentId : String) (subId : Nat)
    (submissions : List Submission) :
    (delete_submission studentId subId submissions = .error .notFound ↔
      ∀ s ∈ submissions, ¬ (s.id = subId ∧ s.studentID = studentId)) ∧
    (∀ remaining, delete_submission studentId subId submissions = .ok remaining →
      remaining = submissions.filter (fun s => ¬ s.id = subId) ∧
      (∀ s ∈ remaining, ¬ s.id = subId) ∧
      (∀ s ∈ submissions, ¬ s.id = subId → s ∈ remaining) ∧
      (∀ (a : Assignment) (kept : List Submission),
        matchingSubmissions a remaining = some kept → ∀ s ∈ kept, ¬ s.id = subId)) := by
  constructor
  · unfold delete_submission
    cases hf : submissions.find? (fun s => s.id == subId && s.studentID == studentId) with
    | none =>
      simp only [true_iff]
      intro s hs
      have := List.find?_eq_none.mp hf s hs
      simpa using this
    | some s =>
      have hmem := List.mem_of_find?_eq_some hf
      have hprop := List.find?_some hf
      simp only [Bool.and_eq_true, beq_iff_eq] at hprop
      constructor
      · intro hcontra
        cases hcontra
      · intro hall
        exact absurd hprop (hall s hmem)
  · intro remaining hok
    unfold delete_submission at hok
    cases hf : submissions.find? (fun s => s.id == subId && s.studentID == studentId) with
    | none =>
      rw [hf] at hok
      cases hok
    | some s =>
      rw [hf] at hok
      injection hok with hok
      subst hok
      refine ⟨rfl, ?_, ?_, ?_⟩
      · intro t ht
        have := (List.mem_filter.mp ht).2
        simpa using this
      · intro t ht htid
        exact List.mem_filter.mpr ⟨ht, by simpa using htid⟩
      · intro a kept hm t htk
        have htmem := matchingSubmissions_subset a _ kept hm t htk
        have := (List.mem_filter.mp htmem).2
        simpa using this

/-- C7 witness: deleting submission 1 of student `S1` from
`[subMathA, subMathB]` keeps exactly `subMathB`, by the theorem at a
concrete input. -/
theorem delete_submission_spec_witness :
    delete_submission "S1" 1 [subMathA, subMathB] = .ok [subMathB] ∧
    [subMathB] = [subMathA, subMathB].filter (fun s => ¬ s.id = 1) := by
  have h := (delete_submission_spec "S1" 1 [subMathA, subMathB]).2 [subMathB] (by decide)
  exact ⟨by decide, h.1⟩

/-- Two submissions sharing id 1 — a state the count-based id scheme can
produce (upload, upload, delete the first, upload again). -/
def dupA : Submission :=
  { id := 1, studentID := "SA", name := "Ada", sectionName := "A", subject := "Math"
    fileName := "a.pdf", filePath := "uploads/SA/a.pdf", submittedOn := some "t1"
    status := "Pending", remarks := "" }

/-- The other student's record with the same id 1. -/
def dupB : Submission :=
  { id := 1, studentID := "SB", name := "Bo", sectionName := "A", subject := "Math"
    fileName := "b.pdf", filePath := "uploads/SB/b.pdf", submittedOn := some "t2"
    status := "Pending", remarks := "" }

/-- C7 counterexample: student `SA` deletes submission 1, and student `SB`'s
record — a different record of a different student — disappears with it,
because the code filters `s['id'] != sub_id` over the whole collection
(app.py 266); the claim's "every other submission record in the collection
is unchanged" fails. -/
theorem delete_submission_removes_other_students_record :
    ¬ dupB.studentID = "SA" ∧ ¬ dupB = dupA ∧
    delete_submission "SA" 1 [dupA, dupB] = .ok [] := by
  decide

/-! ## C8 — "absent" and "not mine" are indistinguishable -/

/-- C8: when the caller owns no assignment with the requested id — whether
the id is absent altogether or belongs to another faculty —
`delete_assignment`, `get_assignment_submissions` and
`export_submissions_csv` all answer exactly `NotFoundError`; consequently
any two stores in that situation (e.g. one holding the foreign assignment
and one without it) yield identical responses to that caller. -/
theorem notfound_indistinguishable (facultyId : String) (assignId : Nat)
    (assignments : List Assignment) (submissions : List Submission)
    (h : ∀ a ∈ assignments, a.id = assignId → ¬ a.assignedBy = facultyId) :
    delete_assignment facultyId assignId assignments = .error .notFound ∧
    get_assignment_submissions facultyId assignId assignments submissions = .error .notFound ∧
    export_submissions_csv facultyId assignId assignments submissions = .error .notFound ∧
    (∀ (assignments' : List Assignment) (submissions' : List Submission),
      (∀ a ∈ assignments', a.id = assignId → ¬ a.assignedBy = facultyId) →
      delete_assignment facultyId assignId assignments =
        delete_assignment facultyId assignId assignments' ∧
      get_assignment_submissions facultyId assignId assignments submissions =
        get_assignment_submissions facultyId assignId assignments' submissions' ∧
      export_submissions_csv facultyId assignId assignments submissions =
        export_submissions_csv facultyId assignId assignments' submissions') := by
  have hnone : ∀ col : List Assignment,
      (∀ a ∈ col, a.id = assignId → ¬ a.assignedBy = facultyId) →
      col.find? (fun a => a.id == assignId && a.assignedBy == facultyId) = none := by
    intro col hcol
    apply List.find?_eq_none.mpr
    intro a ha
    simp only [Bool.and_eq_true, beq_iff_eq, not_and]
    exact hcol a ha
  have hdel : ∀ col, (∀ a ∈ col, a.id = assignId → ¬ a.assignedBy = facultyId) →
      delete_assignment facultyId assignId col = .error .notFound := by
    intro col hcol
    unfold delete_assignment
    rw [hnone col hcol]
  have hview : ∀ col subs, (∀ a ∈ col, a.id = assignId → ¬ a.assignedBy = facultyId) →
      get_assignment_submissions facultyId assignId col subs = .error .notFound := by
    intro col subs hcol
    unfold get_assignment_submissions
    rw [hnone col hcol]
  have hexport : ∀ col subs, (∀ a ∈ col, a.id = assignId → ¬ a.assignedBy = facultyId) →
      export_submissions_csv facultyId assignId col subs = .error .notFound := by
    intro col subs hcol
    unfold export_submissions_csv
    rw [hnone col hcol]
  refine ⟨hdel _ h, hview _ _ h, hexport _ _ h, ?_⟩
  intro assignments' submissions' h'
  refine ⟨?_, ?_, ?_⟩
  · rw [hdel _ h, hdel _ h']
  · rw [hview _ _ h, hview _ _ h']
  · rw [hexport _ _ h, hexport _ _ h']

/-- C8 witness: faculty `F1` requesting assignment 2 gets the same
`NotFoundError` whether the store holds `F2`'s assignment 2 or is empty. -/
theorem notfound_indistinguishable_witness :
    delete_assignment "F1" 2 [preexistingF2] = .error .notFound ∧
    delete_assignment "F1" 2 [preexistingF2] = delete_assignment "F1" 2 [] ∧
    get_assignment_submissions "F1" 2 [preexistingF2] [subMathA] =
      get_assignment_submissions "F1" 2 [] [] ∧
    export_submissions_csv "F1" 2 [preexistingF2] [subMathA] =
      export_submissions_csv "F1" 2 [] [] := by
  have h1 := notfound_indistinguishable "F1" 2 [preexistingF2] [subMathA] (by decide)
  have h2 := h1.2.2.2 [] [] (by decide)
  exact ⟨h1.1, h2.1, h2.2.1, h2.2.2⟩

/-! ## C9 — export table shape -/

/-- A submission record whose `submittedOn` key is absent. -/
def subNoTimestamp : Submission :=
  { id := 4, studentID := "S4", name := "Dee", sectionName := "B", subject := "Math"
    fileName := "d.pdf", filePath := "uploads/S4/d.pdf", submittedOn := none
    status := "Pending", remarks := "" }

/-- C9: the export table starts with exactly the header
`[Student Name, ID, Section, File, Submitted, Status]`, carries one
six-column data row per submission in input order, and renders the
`Submitted` column as the literal `"N/A"` whenever `submittedOn` is
absent. -/
theorem csvRows_spec (submissions : List Submission) :
    (csvRows submissions).head? =
      some ["Student Name", "ID", "Section", "File", "Submitted", "Status"] ∧
    (csvRows submissions).tail = submissions.map csvRow ∧
    (csvRows submissions).length = submissions.length + 1 ∧
    (∀ row ∈ csvRows submissions, row.length = 6) ∧
    (∀ s : Submission, s.submittedOn = none →
      csvRow s = [s.name, s.studentID, s.sectionName, s.fileName, "N/A", s.status]) := by
  refine ⟨rfl, rfl, by simp [csvRows], ?_, ?_⟩
  · intro row hrow
    rcases List.mem_cons.mp hrow with rfl | hrow
    · rfl
    · obtain ⟨s, _, rfl⟩ := List.mem_map.mp hrow
      rfl
  · intro s hs
    simp [csvRow, hs]

/-- C9 witness: the theorem's placeholder clause at a concrete record with
no `submittedOn`. -/
theorem csvRows_spec_witness :
    csvRow subNoTimestamp = ["Dee", "S4", "B", "d.pdf", "N/A", "Pending"] := by
  have h := (csvRows_spec []).2.2.2.2 subNoTimestamp rfl
  rw [h]
  decide

/-! ## C10 — the matcher is fail-open on the targeting scope -/

/-- An assignment with the unrecognized targeting scope `"everyone"`. -/
def bogusScopeAssignment : Assignment :=
  { id := 5
    subject := "Math"
    targetType := some "everyone"
    targetSection := some "A"
    targetStudents := ["S9"]
    deadlineDate := "2025-03-01"
    deadlineTime := "11:00"
    assignedBy := "F1"
    assignedByName := "Prof"
    createdAt := "t5" }

/-- C10: for every assignment whose (present) `targetType` is neither
`'section'` nor `'students'` — including unrecognized values — the filter
used by view-submissions and by export-csv keeps every submission whose
subject matches, applying no scope restriction at all (fail-open), unlike
the fail-closed visibility chain. -/
theorem matcher_fail_open_on_unrecognized_scope (a : Assignment) (tt : String)
    (h1 : a.targetType = some tt) (h2 : ¬ tt = "section") (h3 : ¬ tt = "students")
    (submissions : List Submission) :
    matchingSubmissions a submissions =
      some (submissions.filter (fun s => s.subject == a.subject)) ∧
    exportFiltered a submissions =
      some (submissions.filter (fun s => s.subject == a.subject)) := by
  have hm : matchingSubmissions a submissions =
      some (submissions.filter (fun s => s.subject == a.subject)) := by
    unfold matchingSubmissions
    rw [h1]
    dsimp only
    rw [if_neg h2, if_neg h3]
  exact ⟨hm, by rw [exportFiltered_eq]; exact hm⟩

/-- C10 witness: an `"everyone"`-scoped `Math` assignment matches both
`Math` submissions — section `B` and the out-of-`targetStudents` student
included — and drops only the `Physics` one. -/
theorem matcher_fail_open_witness :
    bogusScopeAssignment.targetType = some "everyone" ∧
    matchingSubmissions bogusScopeAssignment [subMathA, subMathB, subPhysicsA] =
      some [subMathA, subMathB] := by
  refine ⟨rfl, ?_⟩
  rw [(matcher_fail_open_on_unrecognized_scope bogusScopeAssignment "everyone" rfl
    (by decide) (by decide) [subMathA, subMathB, subPhysicsA]).1]
  decide

end OnlineRecordSubmission
